import Mathlib

/-!
Shallow embedding of the Spotify now-playing service (token manager and
now-playing resolver).  Timestamps are integers (milliseconds, as produced
by `Date.now()`).  The outcome of each outbound HTTP interaction is supplied
by a `World` record; a fetch that rejects (network error, or a `.json()`
call that throws) is the `Fetch.thrown` case.  Module-level mutable caches
become an explicit `SpotifyState` threaded through each call, and every
function additionally reports the number of outbound HTTP requests it issued.
-/

namespace SpotifyStatus

/-- The normalized now-playing value (`SpotifyNowPlaying` in the source). -/
structure SpotifyNowPlaying where
  artist : String
  isPlaying : Bool
  title : String
deriving Repr, DecidableEq

/-- The `payload` field of `nowPlayingCache`:
a track, the literal `false`, or the initial `null`. -/
inductive NowPayload where
  | track : SpotifyNowPlaying → NowPayload
  | unavailable : NowPayload
  | empty : NowPayload
deriving Repr, DecidableEq

/-- The module-level `tokenCache`. -/
structure TokenCache where
  access_token : Option String
  expires_at : Int
deriving Repr, DecidableEq

/-- The module-level `nowPlayingCache`. -/
structure NowPlayingCacheEntry where
  payload : NowPayload
  expires_at : Int
deriving Repr, DecidableEq

/-- All three module-level caches of the source file. -/
structure SpotifyState where
  tokenCache : TokenCache
  nowPlayingCache : NowPlayingCacheEntry
  lastPlayedTrack : Option SpotifyNowPlaying
deriving Repr, DecidableEq

/-- `TOKEN_EXPIRY_BUFFER = 60 * 1000`. -/
def TOKEN_EXPIRY_BUFFER : Int := 60 * 1000

/-- Default `NOW_PLAYING_TTL` (`10000` when the env override is absent). -/
def NOW_PLAYING_TTL : Int := 10000

/-- The state at module load time. -/
def initialState : SpotifyState :=
  { tokenCache := { access_token := none, expires_at := 0 },
    nowPlayingCache := { payload := .empty, expires_at := 0 },
    lastPlayedTrack := none }

/-- Outcome of an awaited fetch (plus its body parse):
either a value or a thrown exception. -/
inductive Fetch (α : Type) where
  | ok : α → Fetch α
  | thrown : Fetch α
deriving Repr, DecidableEq

/-- Parsed body of a successful token exchange. -/
structure TokenResponse where
  access_token : String
  expires_in : Int
deriving Repr, DecidableEq

/-- One entry of an `artists` array. -/
structure Artist where
  name : String
deriving Repr, DecidableEq

/-- A track object: `{ name, artists }`. -/
structure TrackItem where
  name : String
  artists : List Artist
deriving Repr, DecidableEq

/-- Body of a 200 currently-playing response: `{ item, is_playing }`. -/
structure LiveBody where
  item : TrackItem
  is_playing : Bool
deriving Repr, DecidableEq

/-- A currently-playing response: its status, and what `.json()` yields
(`thrown` when reading or parsing the body would throw). -/
structure LiveResponse where
  status : Int
  json : Fetch LiveBody
deriving Repr, DecidableEq

/-- One entry of the recently-played `items` array. -/
structure RecentItem where
  track : TrackItem
deriving Repr, DecidableEq

/-- Body of a recently-played response. -/
structure RecentBody where
  items : List RecentItem
deriving Repr, DecidableEq

/-- A recently-played response: `ok` is `response.ok`; `body` is what
`.json()` yields when read. -/
structure RecentResponse where
  ok : Bool
  body : RecentBody
deriving Repr, DecidableEq

/-- Upstream behavior during one resolver call: the token-exchange outcome
(used for any exchange performed during the call), the currently-playing
fetch outcome, and the recently-played fetch outcome. -/
structure World where
  exchange : Fetch TokenResponse
  live : Fetch LiveResponse
  recent : Fetch RecentResponse
deriving Repr, DecidableEq

/-- What `getNowPlaying` resolves to: a track payload or the literal `false`. -/
inductive NowResult where
  | track : SpotifyNowPlaying → NowResult
  | unavailable : NowResult
deriving Repr, DecidableEq

/-- Everything observable about one `getNowPlaying` call: the returned (or
thrown) result, the module state afterwards, and how many outbound HTTP
requests were issued. -/
structure CallOutcome where
  result : Fetch NowResult
  state : SpotifyState
  requests : Nat
deriving Repr, DecidableEq

/-- The miss path of `getAccessToken`: POST the refresh-token exchange and,
on success, overwrite the token cache with the buffered expiry. -/
def exchangeToken (tc : TokenCache) (now : Int) (ex : Fetch TokenResponse) :
    Fetch String × TokenCache × Nat :=
  match ex with
  | .thrown => (.thrown, tc, 1)
  | .ok r =>
    (.ok r.access_token,
     { access_token := some r.access_token,
       expires_at := now + r.expires_in * 1000 - TOKEN_EXPIRY_BUFFER }, 1)

/-- `getAccessToken`: return the cached token when
`tokenCache.access_token && tokenCache.expires_at && Date.now() < tokenCache.expires_at`
(JS truthiness: a non-empty token string and a non-zero expiry), otherwise
perform the exchange.  Returns the token (or throw), the token cache
afterwards, and the number of exchange requests issued. -/
def getAccessToken (tc : TokenCache) (now : Int) (ex : Fetch TokenResponse) :
    Fetch String × TokenCache × Nat :=
  if tc.access_token ≠ none ∧ tc.access_token ≠ some "" ∧
      tc.expires_at ≠ 0 ∧ now < tc.expires_at then
    (.ok (tc.access_token.getD ""), tc, 0)
  else exchangeToken tc now ex

/-- Lines 170-174: overwrite `nowPlayingCache` with the `false` sentinel and
a fresh TTL expiry, and return `false`. -/
def cacheUnavailable (s : SpotifyState) (now ttl : Int) (reqs : Nat) : CallOutcome :=
  { result := .ok .unavailable,
    state := { s with
      nowPlayingCache := { payload := .unavailable, expires_at := now + ttl } },
    requests := reqs }

/-- The `catch` of the recently-played `try`: return the stored
`lastPlayedTrack` with `isPlaying` forced false when present (no cache
write), otherwise fall through to caching the `false` sentinel. -/
def recentCatch (s : SpotifyState) (now ttl : Int) (reqs : Nat) : CallOutcome :=
  match s.lastPlayedTrack with
  | some t =>
    { result := .ok (.track { t with isPlaying := false }), state := s, requests := reqs }
  | none => cacheUnavailable s now ttl reqs

/-- The value `return nowPlayingCache.payload` yields on a cache hit
(the guard rules out `null`). -/
def cachedResult : NowPayload → NowResult
  | .track t => .track t
  | .unavailable => .unavailable
  | .empty => .unavailable

/-- `getNowPlaying(options)`, with `forceRefresh = options?.forceRefresh ?? false`
already resolved, the current time and TTL passed explicitly, and upstream
behavior given by `w`.  Mirrors the source line by line: cache check; token
fetch; live fetch; the 204 branch with its `try`/`catch` around the
recently-played lookup; the `status > 400` branch; the parse-and-cache
success path (where an empty `artists` array makes `artists[0].name` throw). -/
def getNowPlaying (s : SpotifyState) (now ttl : Int) (forceRefresh : Bool)
    (w : World) : CallOutcome :=
  if forceRefresh = false ∧ s.nowPlayingCache.payload ≠ .empty ∧
      now < s.nowPlayingCache.expires_at then
    { result := .ok (cachedResult s.nowPlayingCache.payload), state := s, requests := 0 }
  else
    match getAccessToken s.tokenCache now w.exchange with
    | (.thrown, tc1, r1) =>
      { result := .thrown, state := { s with tokenCache := tc1 }, requests := r1 }
    | (.ok _, tc1, r1) =>
      match w.live with
      | .thrown =>
        { result := .thrown, state := { s with tokenCache := tc1 }, requests := r1 + 1 }
      | .ok resp =>
        if resp.status = 204 then
          match getAccessToken tc1 now w.exchange with
          | (.thrown, tc2, r2) =>
            recentCatch { s with tokenCache := tc2 } now ttl (r1 + 1 + r2)
          | (.ok _, tc2, r2) =>
            match w.recent with
            | .thrown => recentCatch { s with tokenCache := tc2 } now ttl (r1 + 1 + r2 + 1)
            | .ok rr =>
              if rr.ok then
                match rr.body.items with
                | [] => cacheUnavailable { s with tokenCache := tc2 } now ttl (r1 + 1 + r2 + 1)
                | item :: _ =>
                  match item.track.artists with
                  | [] => recentCatch { s with tokenCache := tc2 } now ttl (r1 + 1 + r2 + 1)
                  | a :: _ =>
                    { result := .ok (.track
                        { artist := a.name, isPlaying := false, title := item.track.name }),
                      state :=
                        { tokenCache := tc2,
                          nowPlayingCache :=
                            { payload := .track
                                { artist := a.name, isPlaying := false, title := item.track.name },
                              expires_at := now + ttl },
                          lastPlayedTrack := some
                            { artist := a.name, isPlaying := false, title := item.track.name } },
                      requests := r1 + 1 + r2 + 1 }
              else cacheUnavailable { s with tokenCache := tc2 } now ttl (r1 + 1 + r2 + 1)
        else if resp.status > 400 then
          match s.lastPlayedTrack with
          | some t =>
            { result := .ok (.track { t with isPlaying := false }),
              state := { s with tokenCache := tc1 }, requests := r1 + 1 }
          | none => cacheUnavailable { s with tokenCache := tc1 } now ttl (r1 + 1)
        else
          match resp.json with
          | .thrown =>
            { result := .thrown, state := { s with tokenCache := tc1 }, requests := r1 + 1 }
          | .ok body =>
            match body.item.artists with
            | [] =>
              { result := .thrown, state := { s with tokenCache := tc1 }, requests := r1 + 1 }
            | a :: _ =>
              { result := .ok (.track
                  { artist := a.name, isPlaying := body.is_playing, title := body.item.name }),
                state :=
                  { tokenCache := tc1,
                    nowPlayingCache :=
                      { payload := .track
                          { artist := a.name, isPlaying := body.is_playing, title := body.item.name },
                        expires_at := now + ttl },
                    lastPlayedTrack := some
                      { artist := a.name, isPlaying := body.is_playing, title := body.item.name } },
                requests := r1 + 1 }

/-- Sanity check of the embedding: a 200 response with one artist resolves
to the parsed payload. -/
theorem getNowPlaying_live_success_sample :
    (getNowPlaying initialState 100 10000 false
      { exchange := .ok { access_token := "tok", expires_in := 3600 },
        live := .ok { status := 200,
                      json := .ok { item := { name := "A", artists := [{ name := "B" }] },
                                    is_playing := true } },
        recent := .thrown }).result
    = .ok (.track { artist := "B", isPlaying := true, title := "A" }) := by decide

/-- Claim C4: with `forceRefresh = false`, a populated (non-`null`, possibly
the `false` sentinel) and unexpired `nowPlayingCache` is returned as is, with
zero outbound HTTP requests and all three caches unchanged. -/
theorem claim_C4_cache_hit (s : SpotifyState) (now ttl : Int) (w : World)
    (hpay : s.nowPlayingCache.payload ≠ .empty)
    (hfresh : now < s.nowPlayingCache.expires_at) :
    getNowPlaying s now ttl false w =
      { result := .ok (cachedResult s.nowPlayingCache.payload),
        state := s, requests := 0 } := by
  unfold getNowPlaying
  rw [if_pos ⟨rfl, hpay, hfresh⟩]

/-- Witness for C4 at a concrete state holding the cached `false` sentinel. -/
theorem claim_C4_witness :
    getNowPlaying
      { tokenCache := { access_token := none, expires_at := 0 },
        nowPlayingCache := { payload := .unavailable, expires_at := 500 },
        lastPlayedTrack := none } 100 10000 false
      { exchange := .thrown, live := .thrown, recent := .thrown } =
      { result := .ok .unavailable,
        state :=
          { tokenCache := { access_token := none, expires_at := 0 },
            nowPlayingCache := { payload := .unavailable, expires_at := 500 },
            lastPlayedTrack := none },
        requests := 0 } :=
  claim_C4_cache_hit _ 100 10000 _ (by decide) (by decide)

/-- Claim C5: a `getAccessToken` miss performs the exchange and stores the
token with `expires_at = now + expires_in * 1000 - 60000`; a second call
while `now < expires_at` returns the cached token with no exchange request
(so the two calls together perform exactly one exchange). -/
theorem claim_C5_token_reuse (tc : TokenCache) (now1 now2 : Int)
    (r : TokenResponse) (ex2 : Fetch TokenResponse)
    (hmiss : ¬(tc.access_token ≠ none ∧ tc.access_token ≠ some "" ∧
      tc.expires_at ≠ 0 ∧ now1 < tc.expires_at))
    (htok : r.access_token ≠ "")
    (h0 : 0 ≤ now2)
    (h2 : now2 < now1 + r.expires_in * 1000 - TOKEN_EXPIRY_BUFFER) :
    getAccessToken tc now1 (.ok r) =
      (.ok r.access_token,
       { access_token := some r.access_token,
         expires_at := now1 + r.expires_in * 1000 - TOKEN_EXPIRY_BUFFER }, 1) ∧
    getAccessToken
      { access_token := some r.access_token,
        expires_at := now1 + r.expires_in * 1000 - TOKEN_EXPIRY_BUFFER } now2 ex2 =
      (.ok r.access_token,
       { access_token := some r.access_token,
         expires_at := now1 + r.expires_in * 1000 - TOKEN_EXPIRY_BUFFER }, 0) := by
  constructor
  · unfold getAccessToken
    rw [if_neg hmiss]
    rfl
  · unfold getAccessToken
    rw [if_pos (show some r.access_token ≠ none ∧ some r.access_token ≠ some "" ∧
        (now1 + r.expires_in * 1000 - TOKEN_EXPIRY_BUFFER) ≠ 0 ∧
        now2 < now1 + r.expires_in * 1000 - TOKEN_EXPIRY_BUFFER from
      ⟨by simp, by simpa using htok, by omega, h2⟩)]
    rfl

/-- Witness for C5: a cold token cache, one exchange, then a cache hit. -/
theorem claim_C5_witness :
    getAccessToken { access_token := none, expires_at := 0 } 1000
      (.ok { access_token := "tok", expires_in := 3600 }) =
      (.ok "tok", { access_token := some "tok", expires_at := 1000 + 3600 * 1000 - TOKEN_EXPIRY_BUFFER }, 1) ∧
    getAccessToken { access_token := some "tok", expires_at := 1000 + 3600 * 1000 - TOKEN_EXPIRY_BUFFER }
      2000 .thrown =
      (.ok "tok", { access_token := some "tok", expires_at := 1000 + 3600 * 1000 - TOKEN_EXPIRY_BUFFER }, 0) :=
  claim_C5_token_reuse { access_token := none, expires_at := 0 } 1000 2000
    { access_token := "tok", expires_in := 3600 } .thrown
    (by decide) (by decide) (by decide) (by decide)

/-- Counterexample to claim C1: with a stored LastPlayedTrack and a token
cache hit, a thrown live fetch makes `getNowPlaying` throw rather than
return the stored track with `isPlaying` false. -/
theorem claim_C1_counterexample :
    ({ tokenCache := { access_token := some "tok", expires_at := 1000 },
       nowPlayingCache := { payload := .empty, expires_at := 0 },
       lastPlayedTrack := some { artist := "B", isPlaying := false, title := "A" } }
        : SpotifyState).lastPlayedTrack
      = some { artist := "B", isPlaying := false, title := "A" } ∧
    (getNowPlaying
      { tokenCache := { access_token := some "tok", expires_at := 1000 },
        nowPlayingCache := { payload := .empty, expires_at := 0 },
        lastPlayedTrack := some { artist := "B", isPlaying := false, title := "A" } }
      100 10000 false
      { exchange := .thrown, live := .thrown, recent := .thrown }).result
      = .thrown := by
  exact ⟨rfl, by decide⟩

/-- Amended claim C1: a network error of the live currently-playing fetch is
not caught anywhere in `getNowPlaying`: the exception propagates to the
caller (even when LastPlayedTrack exists), leaving `nowPlayingCache` and
`lastPlayedTrack` unchanged; only the token cache may have been refreshed. -/
theorem claim_C1_amended (s : SpotifyState) (now ttl : Int) (f : Bool) (w : World)
    (tok1 : String) (tc1 : TokenCache) (r1 : Nat)
    (hmiss : ¬(f = false ∧ s.nowPlayingCache.payload ≠ .empty ∧
      now < s.nowPlayingCache.expires_at))
    (h1 : getAccessToken s.tokenCache now w.exchange = (.ok tok1, tc1, r1))
    (hlive : w.live = .thrown) :
    getNowPlaying s now ttl f w =
      { result := .thrown, state := { s with tokenCache := tc1 }, requests := r1 + 1 } := by
  unfold getNowPlaying
  rw [if_neg hmiss, h1, hlive]

/-- Witness for the amended C1 at a concrete state and world. -/
theorem claim_C1_witness :
    getNowPlaying
      { tokenCache := { access_token := some "tok", expires_at := 1000 },
        nowPlayingCache := { payload := .empty, expires_at := 0 },
        lastPlayedTrack := some { artist := "B", isPlaying := false, title := "A" } }
      100 10000 false
      { exchange := .thrown, live := .thrown, recent := .thrown } =
      { result := .thrown,
        state :=
          { tokenCache := { access_token := some "tok", expires_at := 1000 },
            nowPlayingCache := { payload := .empty, expires_at := 0 },
            lastPlayedTrack := some { artist := "B", isPlaying := false, title := "A" } },
        requests := 0 + 1 } :=
  claim_C1_amended _ 100 10000 false _ "tok" _ 0 (by decide) (by decide) rfl

/-- Claim C3: on a cache miss, a 204 live response followed by a successful
recently-played response whose first item is track `A` by artist `B` makes
the resolver return `{title := A, artist := B, isPlaying := false}` and write
that value to both `lastPlayedTrack` and `nowPlayingCache` (fresh TTL). -/
theorem claim_C3_fallback_success (s : SpotifyState) (now ttl : Int) (f : Bool)
    (w : World) (tok1 tok2 : String) (tc1 tc2 : TokenCache) (r1 r2 : Nat)
    (resp : LiveResponse) (rr : RecentResponse) (item : RecentItem)
    (rest : List RecentItem) (A B : String)
    (hmiss : ¬(f = false ∧ s.nowPlayingCache.payload ≠ .empty ∧
      now < s.nowPlayingCache.expires_at))
    (h1 : getAccessToken s.tokenCache now w.exchange = (.ok tok1, tc1, r1))
    (hlive : w.live = .ok resp)
    (hst : resp.status = 204)
    (h2 : getAccessToken tc1 now w.exchange = (.ok tok2, tc2, r2))
    (hrec : w.recent = .ok rr)
    (hok : rr.ok = true)
    (hitems : rr.body.items = item :: rest)
    (hname : item.track.name = A)
    (hartists : item.track.artists = [{ name := B }]) :
    getNowPlaying s now ttl f w =
      { result := .ok (.track { artist := B, isPlaying := false, title := A }),
        state :=
          { tokenCache := tc2,
            nowPlayingCache :=
              { payload := .track { artist := B, isPlaying := false, title := A },
                expires_at := now + ttl },
            lastPlayedTrack := some { artist := B, isPlaying := false, title := A } },
        requests := r1 + 1 + r2 + 1 } := by
  unfold getNowPlaying
  rw [if_neg hmiss, h1, hlive]
  simp [hst, h2, hrec, hok, hitems, hname, hartists]

/-- Witness for C3 at a concrete state and world. -/
theorem claim_C3_witness :
    getNowPlaying initialState 100 10000 false
      { exchange := .ok { access_token := "tok", expires_in := 3600 },
        live := .ok { status := 204, json := .thrown },
        recent := .ok { ok := true,
                        body := { items := [{ track := { name := "A", artists := [{ name := "B" }] } }] } } } =
      { result := .ok (.track { artist := "B", isPlaying := false, title := "A" }),
        state :=
          { tokenCache := { access_token := some "tok",
                            expires_at := 100 + 3600 * 1000 - TOKEN_EXPIRY_BUFFER },
            nowPlayingCache :=
              { payload := .track { artist := "B", isPlaying := false, title := "A" },
                expires_at := 100 + 10000 },
            lastPlayedTrack := some { artist := "B", isPlaying := false, title := "A" } },
        requests := 1 + 1 + 0 + 1 } :=
  claim_C3_fallback_success initialState 100 10000 false _ "tok" "tok"
    { access_token := some "tok", expires_at := 100 + 3600 * 1000 - TOKEN_EXPIRY_BUFFER }
    { access_token := some "tok", expires_at := 100 + 3600 * 1000 - TOKEN_EXPIRY_BUFFER }
    1 0 { status := 204, json := .thrown }
    { ok := true,
      body := { items := [{ track := { name := "A", artists := [{ name := "B" }] } }] } }
    { track := { name := "A", artists := [{ name := "B" }] } } [] "A" "B"
    (by decide) (by decide) rfl (by decide) (by decide) rfl (by decide) (by decide)
    (by decide) (by decide)

/-- Claim C6: on a cache miss, a live response with status strictly greater
than 400 returns the stored `lastPlayedTrack` with `isPlaying` forced false,
leaving `nowPlayingCache` untouched; with no stored track it caches the
`false` sentinel with a fresh TTL and returns it. -/
theorem claim_C6_error_status_fallback (s : SpotifyState) (now ttl : Int)
    (f : Bool) (w : World) (tok1 : String) (tc1 : TokenCache) (r1 : Nat)
    (resp : LiveResponse)
    (hmiss : ¬(f = false ∧ s.nowPlayingCache.payload ≠ .empty ∧
      now < s.nowPlayingCache.expires_at))
    (h1 : getAccessToken s.tokenCache now w.exchange = (.ok tok1, tc1, r1))
    (hlive : w.live = .ok resp)
    (hst : resp.status ≠ 204)
    (h4 : resp.status > 400) :
    getNowPlaying s now ttl f w =
      match s.lastPlayedTrack with
      | some t =>
        { result := .ok (.track { t with isPlaying := false }),
          state := { s with tokenCache := tc1 }, requests := r1 + 1 }
      | none =>
        { result := .ok .unavailable,
          state := { s with
                     tokenCache := tc1,
                     nowPlayingCache := { payload := .unavailable, expires_at := now + ttl } },
          requests := r1 + 1 } := by
  unfold getNowPlaying
  rw [if_neg hmiss, h1, hlive]
  simp only [if_neg hst, if_pos h4]
  cases hsl : s.lastPlayedTrack <;> rfl

/-- Witness for C6 with a 500 live response and a stored last track. -/
theorem claim_C6_witness :
    getNowPlaying
      { tokenCache := { access_token := some "tok", expires_at := 1000 },
        nowPlayingCache := { payload := .empty, expires_at := 0 },
        lastPlayedTrack := some { artist := "B", isPlaying := false, title := "A" } }
      100 10000 false
      { exchange := .thrown,
        live := .ok { status := 500, json := .thrown },
        recent := .thrown } =
      { result := .ok (.track { artist := "B", isPlaying := false, title := "A" }),
        state :=
          { tokenCache := { access_token := some "tok", expires_at := 1000 },
            nowPlayingCache := { payload := .empty, expires_at := 0 },
            lastPlayedTrack := some { artist := "B", isPlaying := false, title := "A" } },
        requests := 0 + 1 } :=
  claim_C6_error_status_fallback _ 100 10000 false _ "tok" _ 0 _
    (by decide) (by decide) rfl (by decide) (by decide)

/-- Claim C7: from the initial state, a 204 live response plus a successful
recently-played response with an empty `items` list yields the `false`
sentinel, cached with expiry `now + TTL`; a later non-forced call before that
expiry returns the sentinel from cache with no outbound request. -/
theorem claim_C7_cold_start (now1 now2 ttl : Int) (f : Bool) (w w2 : World)
    (r : TokenResponse) (tok2 : String) (tc2 : TokenCache) (r2 : Nat)
    (resp : LiveResponse) (rr : RecentResponse)
    (hex : w.exchange = .ok r)
    (hlive : w.live = .ok resp)
    (hst : resp.status = 204)
    (h2 : getAccessToken
      { access_token := some r.access_token,
        expires_at := now1 + r.expires_in * 1000 - TOKEN_EXPIRY_BUFFER } now1 w.exchange
      = (.ok tok2, tc2, r2))
    (hrec : w.recent = .ok rr)
    (hok : rr.ok = true)
    (hitems : rr.body.items = [])
    (hfresh : now2 < now1 + ttl) :
    getNowPlaying initialState now1 ttl f w =
      { result := .ok .unavailable,
        state := { tokenCache := tc2,
                   nowPlayingCache := { payload := .unavailable, expires_at := now1 + ttl },
                   lastPlayedTrack := none },
        requests := 1 + 1 + r2 + 1 } ∧
    getNowPlaying
      { tokenCache := tc2,
        nowPlayingCache := { payload := .unavailable, expires_at := now1 + ttl },
        lastPlayedTrack := none } now2 ttl false w2 =
      { result := .ok .unavailable,
        state := { tokenCache := tc2,
                   nowPlayingCache := { payload := .unavailable, expires_at := now1 + ttl },
                   lastPlayedTrack := none },
        requests := 0 } := by
  have h1 : getAccessToken initialState.tokenCache now1 w.exchange =
      (.ok r.access_token,
       { access_token := some r.access_token,
         expires_at := now1 + r.expires_in * 1000 - TOKEN_EXPIRY_BUFFER }, 1) := by
    unfold getAccessToken
    rw [if_neg (by simp [initialState]), hex]
    rfl
  constructor
  · unfold getNowPlaying
    rw [if_neg (by simp [initialState]), h1, hlive]
    simp [hst, h2, hrec, hok, hitems, cacheUnavailable, initialState]
  · unfold getNowPlaying
    rw [if_pos ⟨rfl,
      ⟨show NowPayload.unavailable ≠ NowPayload.empty from (fun h => nomatch h), hfresh⟩⟩]
    rfl

/-- Witness for C7 at concrete times and a concrete world. -/
theorem claim_C7_witness :
    getNowPlaying initialState 100 10000 false
      { exchange := .ok { access_token := "tok", expires_in := 3600 },
        live := .ok { status := 204, json := .thrown },
        recent := .ok { ok := true, body := { items := [] } } } =
      { result := .ok .unavailable,
        state := { tokenCache := { access_token := some "tok",
                                   expires_at := 100 + 3600 * 1000 - TOKEN_EXPIRY_BUFFER },
                   nowPlayingCache := { payload := .unavailable, expires_at := 100 + 10000 },
                   lastPlayedTrack := none },
        requests := 1 + 1 + 0 + 1 } ∧
    getNowPlaying
      { tokenCache := { access_token := some "tok",
                        expires_at := 100 + 3600 * 1000 - TOKEN_EXPIRY_BUFFER },
        nowPlayingCache := { payload := .unavailable, expires_at := 100 + 10000 },
        lastPlayedTrack := none } 5000 10000 false
      { exchange := .thrown, live := .thrown, recent := .thrown } =
      { result := .ok .unavailable,
        state := { tokenCache := { access_token := some "tok",
                                   expires_at := 100 + 3600 * 1000 - TOKEN_EXPIRY_BUFFER },
                   nowPlayingCache := { payload := .unavailable, expires_at := 100 + 10000 },
                   lastPlayedTrack := none },
        requests := 0 } :=
  claim_C7_cold_start 100 5000 10000 false _ _
    { access_token := "tok", expires_in := 3600 } "tok"
    { access_token := some "tok", expires_at := 100 + 3600 * 1000 - TOKEN_EXPIRY_BUFFER }
    0 _ _ rfl rfl (by decide) (by decide) rfl (by decide) (by decide) (by decide)

/-- Claim C2 (code evaluated at the failing input): with a stored
LastPlayedTrack, a 204 live response and a successful recently-played
response whose `items` list is empty, `getNowPlaying` caches the `false`
sentinel and returns it — the stored track is ignored, because the
`lastPlayedTrack` fallback lives only in the `catch` block and an empty
list does not throw.  This contradicts the claim (and the source's own
comment about returning `false` only with no cached track). -/
theorem claim_C2_code_bug :
    (getNowPlaying
      { tokenCache := { access_token := some "tok", expires_at := 1000 },
        nowPlayingCache := { payload := .empty, expires_at := 0 },
        lastPlayedTrack := some { artist := "B", isPlaying := false, title := "A" } }
      100 10000 false
      { exchange := .thrown,
        live := .ok { status := 204, json := .thrown },
        recent := .ok { ok := true, body := { items := [] } } }) =
      { result := .ok .unavailable,
        state :=
          { tokenCache := { access_token := some "tok", expires_at := 1000 },
            nowPlayingCache := { payload := .unavailable, expires_at := 100 + 10000 },
            lastPlayedTrack := some { artist := "B", isPlaying := false, title := "A" } },
        requests := 2 } := by decide

/-- Claim C10: on a cache miss, a live response whose status is neither 204
nor strictly above 400 (so 400 itself, and any 2xx/3xx other than 204) takes
the parse-and-cache success path: the body is parsed, `lastPlayedTrack` and
`nowPlayingCache` are updated to the parsed payload, and it is returned. -/
theorem claim_C10_intermediate_status (s : SpotifyState) (now ttl : Int)
    (f : Bool) (w : World) (tok1 : String) (tc1 : TokenCache) (r1 : Nat)
    (resp : LiveResponse) (body : LiveBody) (a : Artist) (rest : List Artist)
    (hmiss : ¬(f = false ∧ s.nowPlayingCache.payload ≠ .empty ∧
      now < s.nowPlayingCache.expires_at))
    (h1 : getAccessToken s.tokenCache now w.exchange = (.ok tok1, tc1, r1))
    (hlive : w.live = .ok resp)
    (hst : resp.status ≠ 204)
    (h4 : ¬resp.status > 400)
    (hjson : resp.json = .ok body)
    (hartists : body.item.artists = a :: rest) :
    getNowPlaying s now ttl f w =
      { result := .ok (.track
          { artist := a.name, isPlaying := body.is_playing, title := body.item.name }),
        state :=
          { tokenCache := tc1,
            nowPlayingCache :=
              { payload := .track
                  { artist := a.name, isPlaying := body.is_playing, title := body.item.name },
                expires_at := now + ttl },
            lastPlayedTrack := some
              { artist := a.name, isPlaying := body.is_playing, title := body.item.name } },
        requests := r1 + 1 } := by
  unfold getNowPlaying
  rw [if_neg hmiss, h1, hlive]
  simp only [if_neg hst, if_neg h4, hjson]
  simp [hartists]

/-- Witness for C10 with status exactly 400. -/
theorem claim_C10_witness :
    getNowPlaying
      { tokenCache := { access_token := some "tok", expires_at := 1000 },
        nowPlayingCache := { payload := .empty, expires_at := 0 },
        lastPlayedTrack := none }
      100 10000 false
      { exchange := .thrown,
        live := .ok { status := 400,
                      json := .ok { item := { name := "A", artists := [{ name := "B" }] },
                                    is_playing := true } },
        recent := .thrown } =
      { result := .ok (.track { artist := "B", isPlaying := true, title := "A" }),
        state :=
          { tokenCache := { access_token := some "tok", expires_at := 1000 },
            nowPlayingCache :=
              { payload := .track { artist := "B", isPlaying := true, title := "A" },
                expires_at := 100 + 10000 },
            lastPlayedTrack := some { artist := "B", isPlaying := true, title := "A" } },
        requests := 0 + 1 } :=
  claim_C10_intermediate_status _ 100 10000 false _ "tok" _ 0
    { status := 400,
      json := .ok { item := { name := "A", artists := [{ name := "B" }] },
                    is_playing := true } }
    { item := { name := "A", artists := [{ name := "B" }] }, is_playing := true }
    { name := "B" } []
    (by decide) (by decide) rfl (by decide) (by decide) (by decide) (by decide)

/-- Counterexample to claim C9: a 200 live response whose track has an empty
`artists` list makes `getNowPlaying` throw (`artists[0].name` is a TypeError
that nothing catches on this path) — it does not return the `false`
sentinel. -/
theorem claim_C9_counterexample :
    (getNowPlaying
      { tokenCache := { access_token := some "tok", expires_at := 1000 },
        nowPlayingCache := { payload := .empty, expires_at := 0 },
        lastPlayedTrack := none }
      100 10000 false
      { exchange := .thrown,
        live := .ok { status := 200,
                      json := .ok { item := { name := "A", artists := [] },
                                    is_playing := true } },
        recent := .thrown }).result = .thrown ∧
    (getNowPlaying
      { tokenCache := { access_token := some "tok", expires_at := 1000 },
        nowPlayingCache := { payload := .empty, expires_at := 0 },
        lastPlayedTrack := none }
      100 10000 false
      { exchange := .thrown,
        live := .ok { status := 200,
                      json := .ok { item := { name := "A", artists := [] },
                                    is_playing := true } },
        recent := .thrown }).result ≠ .ok .unavailable := by decide

/-- Amended claim C9: on the 200 success path the returned artist is the
name of the first entry of the track's `artists` list; when that list is
empty the exception from `artists[0].name` propagates to the caller (the
resolver does not surface `unavailable`). -/
theorem claim_C9_amended (s : SpotifyState) (now ttl : Int) (f : Bool)
    (w : World) (tok1 : String) (tc1 : TokenCache) (r1 : Nat)
    (resp : LiveResponse) (body : LiveBody)
    (hmiss : ¬(f = false ∧ s.nowPlayingCache.payload ≠ .empty ∧
      now < s.nowPlayingCache.expires_at))
    (h1 : getAccessToken s.tokenCache now w.exchange = (.ok tok1, tc1, r1))
    (hlive : w.live = .ok resp)
    (hst : resp.status ≠ 204)
    (h4 : ¬resp.status > 400)
    (hjson : resp.json = .ok body) :
    match body.item.artists with
    | [] =>
      getNowPlaying s now ttl f w =
        { result := .thrown, state := { s with tokenCache := tc1 }, requests := r1 + 1 }
    | a :: _ =>
      (getNowPlaying s now ttl f w).result =
        .ok (.track { artist := a.name, isPlaying := body.is_playing, title := body.item.name }) := by
  unfold getNowPlaying
  rw [if_neg hmiss, h1, hlive]
  simp only [if_neg hst, if_neg h4, hjson]
  cases hartists : body.item.artists with
  | nil => simp [hartists]
  | cons a rest => simp [hartists]

/-- Witness for the amended C9 on a 200 response with two artists. -/
theorem claim_C9_witness :
    (getNowPlaying
      { tokenCache := { access_token := some "tok", expires_at := 1000 },
        nowPlayingCache := { payload := .empty, expires_at := 0 },
        lastPlayedTrack := none }
      100 10000 false
      { exchange := .thrown,
        live := .ok { status := 200,
                      json := .ok { item := { name := "A",
                                              artists := [{ name := "B" }, { name := "C" }] },
                                    is_playing := true } },
        recent := .thrown }).result =
      .ok (.track { artist := "B", isPlaying := true, title := "A" }) :=
  claim_C9_amended _ 100 10000 false _ "tok"
    { access_token := some "tok", expires_at := 1000 } 0
    { status := 200,
      json := .ok { item := { name := "A", artists := [{ name := "B" }, { name := "C" }] },
                    is_playing := true } }
    { item := { name := "A", artists := [{ name := "B" }, { name := "C" }] },
      is_playing := true }
    (by decide) (by decide) rfl (by decide) (by decide) (by decide)

/-- The catch/fall-through paths never touch `lastPlayedTrack`. -/
theorem recentCatch_state_lastPlayed (s : SpotifyState) (now ttl : Int) (n : Nat) :
    (recentCatch s now ttl n).state.lastPlayedTrack = s.lastPlayedTrack := by
  unfold recentCatch cacheUnavailable
  cases h : s.lastPlayedTrack <;> first | rfl | exact h

/-- Counterexample to claim C8: one call from the initial state with a 200
live response and `is_playing = true` reaches a state whose
`lastPlayedTrack` has `isPlaying = true` — the stored value is not forced
to false. -/
theorem claim_C8_counterexample :
    (getNowPlaying initialState 100 10000 true
      { exchange := .ok { access_token := "tok", expires_in := 3600 },
        live := .ok { status := 200,
                      json := .ok { item := { name := "A", artists := [{ name := "B" }] },
                                    is_playing := true } },
        recent := .thrown }).state.lastPlayedTrack =
      some { artist := "B", isPlaying := true, title := "A" } ∧
    Option.map SpotifyNowPlaying.isPlaying
      (getNowPlaying initialState 100 10000 true
        { exchange := .ok { access_token := "tok", expires_in := 3600 },
          live := .ok { status := 200,
                        json := .ok { item := { name := "A", artists := [{ name := "B" }] },
                                      is_playing := true } },
          recent := .thrown }).state.lastPlayedTrack = some true := by decide

/-- Amended claim C8: in every call, `lastPlayedTrack` is never cleared
(once non-null it stays non-null), and whenever it changes the new value is
exactly the track the call resolved and returned (built in the live success
branch or the recently-played success branch).  Its stored `isPlaying` is
the live response's `is_playing` — not forced false; forcing to false
happens in the recently-played build and at fallback reads only. -/
theorem claim_C8_amended (s : SpotifyState) (now ttl : Int) (f : Bool) (w : World) :
    ((getNowPlaying s now ttl f w).state.lastPlayedTrack = none →
      s.lastPlayedTrack = none) ∧
    ((getNowPlaying s now ttl f w).state.lastPlayedTrack ≠ s.lastPlayedTrack →
      ∃ t, (getNowPlaying s now ttl f w).state.lastPlayedTrack = some t ∧
        (getNowPlaying s now ttl f w).result = .ok (.track t)) := by
  unfold getNowPlaying
  repeat' split
  all_goals
    first
    | exact ⟨fun h => h, fun h => absurd rfl h⟩
    | (rw [recentCatch_state_lastPlayed]
       exact ⟨fun h => h, fun h => absurd rfl h⟩)
    | exact ⟨fun h => by simp at h, fun _ => ⟨_, rfl, rfl⟩⟩

/-- Witness for the amended C8: the update branch at a concrete input. -/
theorem claim_C8_witness :
    ∃ t, (getNowPlaying initialState 100 10000 true
      { exchange := .ok { access_token := "tok", expires_in := 3600 },
        live := .ok { status := 200,
                      json := .ok { item := { name := "A", artists := [{ name := "B" }] },
                                    is_playing := true } },
        recent := .thrown }).state.lastPlayedTrack = some t ∧
      (getNowPlaying initialState 100 10000 true
        { exchange := .ok { access_token := "tok", expires_in := 3600 },
          live := .ok { status := 200,
                        json := .ok { item := { name := "A", artists := [{ name := "B" }] },
                                      is_playing := true } },
          recent := .thrown }).result = .ok (.track t) :=
  (claim_C8_amended initialState 100 10000 true
    { exchange := .ok { access_token := "tok", expires_in := 3600 },
      live := .ok { status := 200,
                    json := .ok { item := { name := "A", artists := [{ name := "B" }] },
                                  is_playing := true } },
      recent := .thrown }).2 (by decide)

end SpotifyStatus
